import Mathlib

/-!
Shallow embedding of the eRPC `Rpc<TTr>` datapath core (src/src/rpc.h) in
Lean 4, together with theorems checking the natural-language specification
against it.

Modelling conventions:
- C++ `size_t` values are `Nat` (the quantities involved here — byte counts,
  packet counts, batch indices, credits — never wrap in the code paths we
  model, and the source asserts the relevant bounds).
- Pointers become `Option Nat` (an abstract address, `none` for `nullptr`).
- The hugepage allocator is abstracted as a function `Nat → Option Nat`
  mapping a requested byte count to an optional base address; `none` models
  memory exhaustion (`buffer.buf == nullptr` in the source).
- Stateful methods of `Rpc` become pure functions on explicit state records;
  a call to `transport->tx_burst(arr, n)` is recorded by appending the
  transmitted prefix of the array to a `bursts` log in the state.
- Compile-time template constants (`kMaxDataPerPkt`, `kPostlist`,
  `kFaultInjection`, `kMaxClassSize`) are parameters of the definitions.
-/

namespace ERpc

/-- Modelled from the spec: `sizeof(pkthdr_t)`. The packet-header struct
lives in `pkthdr.h`, which is not part of the sources under review; the spec
fixes the header as bit-exact 16 bytes (8 + 8 + 24 + 16 + 3 + 13 + 44 bits). -/
def sizeof_pkthdr : Nat := 16

/-- Modelled from the spec: `kMsgSizeBits`, the width of the packet header
`msg_size` field (24 bits per the spec's header table). -/
def kMsgSizeBits : Nat := 24

/-- Modelled from the spec: `kPktNumBits`, the width of the packet header
`pkt_num` field (13 bits per the spec's header table). -/
def kPktNumBits : Nat := 13

/-- Modelled from the spec: `Session::kSessionCredits` (`C`), the session
credit bound; the spec gives `C` as typically 8 (`W = C = 8`). The class
`Session` lives in `session.h`, which is not among the sources under review. -/
def kSessionCredits : Nat := 8

/-- `Rpc<TTr>::kMaxMsgSize` (src/src/rpc.h lines 36-38), as a function of the
template/transport constants `HugeAlloc::kMaxClassSize` and
`TTr::kMaxDataPerPkt`:
`kMaxClassSize - (kMaxClassSize / kMaxDataPerPkt) * sizeof(pkthdr_t)`. -/
def kMaxMsgSize (kMaxClassSize kMaxDataPerPkt : Nat) : Nat :=
  kMaxClassSize - (kMaxClassSize / kMaxDataPerPkt) * sizeof_pkthdr

/-- A `MsgBuffer` (declared in `msg_buffer.h`, outside the sources under
review). Modelled from the spec: fields are the owning allocation handle
(`buffer_buf`, nullable — `none` for fake buffers aliasing a ring slot), the
payload pointer `buf`, the current/max data sizes, the packet count, and the
queueing-progress counter `pkts_queued` that `enqueue_pkt_tx_burst_st`
increments. -/
structure MsgBuffer where
  buffer_buf : Option Nat
  buf : Option Nat
  max_data_size : Nat
  max_num_pkts : Nat
  pkts_queued : Nat
deriving Repr, DecidableEq

/-- `MsgBuffer::is_dynamic()`: per the comments in `bury_sslot_tx_msgbuf` and
`bury_sslot_rx_msgbuf` (src/src/rpc.h lines 159-160, 194-195), a MsgBuffer
used dynamic allocation iff its `buffer.buf` is non-NULL. -/
def MsgBuffer.is_dynamic (m : MsgBuffer) : Bool := m.buffer_buf.isSome

/-- The number of packets computed by `alloc_msg_buffer` (src/src/rpc.h
lines 86-94): 1 when `max_data_size <= kMaxDataPerPkt` (division-free fast
path), else `(max_data_size + (kMaxDataPerPkt - 1)) / kMaxDataPerPkt`. -/
def alloc_msg_buffer_num_pkts (kMaxDataPerPkt max_data_size : Nat) : Nat :=
  if max_data_size ≤ kMaxDataPerPkt then 1
  else (max_data_size + (kMaxDataPerPkt - 1)) / kMaxDataPerPkt

/-- The byte count `alloc_msg_buffer` requests from the hugepage allocator
(src/src/rpc.h line 98): `max_data_size + max_num_pkts * sizeof(pkthdr_t)`. -/
def alloc_msg_buffer_alloc_size (kMaxDataPerPkt max_data_size : Nat) : Nat :=
  max_data_size +
    alloc_msg_buffer_num_pkts kMaxDataPerPkt max_data_size * sizeof_pkthdr

/-- `Rpc<TTr>::alloc_msg_buffer` (src/src/rpc.h lines 85-109). The hugepage
allocator is abstracted as `alloc : Nat → Option Nat` (requested bytes to
optional base address). On allocation failure the source returns a
default-constructed `MsgBuffer` with `buf = nullptr` (lines 101-105) — it
does not throw in that case (doc comment, lines 81-83). On success it builds
`MsgBuffer(buffer, max_data_size, max_num_pkts)`; that constructor is in
`msg_buffer.h`, outside the sources under review, so its layout is modelled
from the spec: the payload region has exactly one leading packet-header slot,
so `buf` points `sizeof(pkthdr_t)` bytes past the allocation base. -/
def alloc_msg_buffer (kMaxDataPerPkt : Nat) (alloc : Nat → Option Nat)
    (max_data_size : Nat) : MsgBuffer :=
  let max_num_pkts := alloc_msg_buffer_num_pkts kMaxDataPerPkt max_data_size
  match alloc (alloc_msg_buffer_alloc_size kMaxDataPerPkt max_data_size) with
  | none =>
      { buffer_buf := none, buf := none, max_data_size := 0,
        max_num_pkts := 0, pkts_queued := 0 }
  | some base =>
      { buffer_buf := some base, buf := some (base + sizeof_pkthdr),
        max_data_size := max_data_size, max_num_pkts := max_num_pkts,
        pkts_queued := 0 }

/-- The spec's reservation formula, written exactly as the spec states it:
`p + ceil(p / kMaxDataPerPkt) * header_size`, with ceiling division on
naturals. Named after the spec (not the source) for refinement comparison
with `alloc_msg_buffer_alloc_size`. -/
def spec_reserved_bytes (kMaxDataPerPkt p : Nat) : Nat :=
  p + ((p + kMaxDataPerPkt - 1) / kMaxDataPerPkt) * sizeof_pkthdr

/-- A `Session` (declared in `session.h`, outside the sources under review).
Modelled from the spec: only the fields the claims touch — the client/server
role, the credit counter bounded by `kSessionCredits`, and the free-slot list
`sslot_free_vec` (slot indices available for reuse). -/
structure Session where
  is_client : Bool
  credits : Nat
  sslot_free_vec : List Nat
deriving Repr, DecidableEq

/-- An `SSlot` (declared in `session.h`, outside the sources under review).
Modelled from the spec: the slot index, the TX MsgBuffer pointer (nullable —
`bury_sslot_tx_msgbuf` sets it to NULL), and the RX MsgBuffer held by value
(the source buries it by nulling its `buf` field, not the slot field). -/
structure SSlot where
  index : Nat
  tx_msgbuf : Option MsgBuffer
  rx_msgbuf : MsgBuffer
deriving Repr, DecidableEq

/-- `Rpc<TTr>::bump_credits` (src/src/rpc.h lines 483-487): increment the
session's credit counter. The source asserts `session->is_client()` and
`session->credits < Session::kSessionCredits` before the increment; those
asserts become hypotheses of the theorems. -/
def bump_credits (session : Session) : Session :=
  { session with credits := session.credits + 1 }

/-- `Rpc<TTr>::bury_sslot_tx_msgbuf` (src/src/rpc.h lines 156-170): free the
slot's TX MsgBuffer iff it is non-NULL and dynamic, and NULL-ify the slot's
`tx_msgbuf` pointer in any case. The returned `Bool` records whether
`free_msg_buffer` was called (the buffer was released to the allocator). -/
def bury_sslot_tx_msgbuf (sslot : SSlot) : SSlot × Bool :=
  let freed :=
    match sslot.tx_msgbuf with
    | some tx => tx.is_dynamic
    | none => false
  ({ sslot with tx_msgbuf := none }, freed)

/-- `Rpc<TTr>::bury_sslot_rx_msgbuf` (src/src/rpc.h lines 191-205): if the
slot's RX MsgBuffer is dynamic, free it and null its `buffer.buf` handle;
in every case null its payload pointer `buf`. The returned `Bool` records
whether `free_msg_buffer` was called. -/
def bury_sslot_rx_msgbuf (sslot : SSlot) : SSlot × Bool :=
  let rx := sslot.rx_msgbuf
  let step : MsgBuffer × Bool :=
    if rx.is_dynamic then ({ rx with buffer_buf := none }, true)
    else (rx, false)
  ({ sslot with rx_msgbuf := { step.1 with buf := none } }, step.2)

/-- `Rpc<TTr>::bury_sslot_rx_msgbuf_nofree` (src/src/rpc.h lines 211-215):
null the RX MsgBuffer's payload pointer without freeing. The source asserts
`!sslot->rx_msgbuf.is_dynamic()` (the buffer is fake); that assert becomes a
hypothesis of the theorems. -/
def bury_sslot_rx_msgbuf_nofree (sslot : SSlot) : SSlot :=
  { sslot with rx_msgbuf := { sslot.rx_msgbuf with buf := none } }

/-- `Rpc<TTr>::release_respone` (src/src/rpc.h lines 328-344, name as in the
source): bury the slot's RX MsgBuffer via `bury_sslot_rx_msgbuf`, then push
the slot's index onto its session's `sslot_free_vec`. The source asserts
`sslot->tx_msgbuf == nullptr`, `sslot->rx_msgbuf.buf != nullptr` and
`session->is_client()`; those asserts become hypotheses of the theorems.
The session is passed and returned explicitly (the source reaches it through
`sslot->session`); the returned `Bool` is the bury's freed flag. -/
def release_respone (sslot : SSlot) (session : Session) :
    SSlot × Session × Bool :=
  let buried := bury_sslot_rx_msgbuf sslot
  (buried.1,
   { session with sslot_free_vec := session.sslot_free_vec ++ [sslot.index] },
   buried.2)

/-- `Transport::tx_burst_item_t` (declared in `transport.h`, outside the
sources under review). Modelled from the spec: each burst item names routing
info, a message buffer, a byte offset, a data length, and a `drop` flag
honored by the fault injector. Routing info is an abstract address. -/
structure tx_burst_item_t where
  routing_info : Nat
  msg_buffer : MsgBuffer
  offset : Nat
  data_bytes : Nat
  drop : Bool
deriving Repr, DecidableEq

/-- The default (value-constructed) burst item, used for out-of-range `getD`
reads of the burst array; the source asserts `tx_batch_i < kPostlist`, so
in-range theorems carry that bound as a hypothesis. -/
def dfltItem : tx_burst_item_t :=
  { routing_info := 0,
    msg_buffer :=
      { buffer_buf := none, buf := none, max_data_size := 0,
        max_num_pkts := 0, pkts_queued := 0 },
    offset := 0, data_bytes := 0, drop := false }

/-- The TX-side state of an `Rpc` object (fields of the class,
src/src/rpc.h lines 686-722): the burst array `tx_burst_arr` (length
`kPostlist`), the batch index `tx_batch_i`, the fault-injection fields
`faults.drop_tx_local` and `faults.drop_tx_local_countdown`, and a log
`bursts` recording each `transport->tx_burst(arr, n)` call as the
transmitted length-`n` prefix of the array. -/
structure RpcTxState where
  tx_burst_arr : List tx_burst_item_t
  tx_batch_i : Nat
  faults_drop_tx_local : Bool
  faults_drop_tx_local_countdown : Nat
  bursts : List (List tx_burst_item_t)
deriving Repr, DecidableEq

/-- The fault-injection block of `enqueue_pkt_tx_burst_st` (src/src/rpc.h
lines 387-404, the `kFaultInjection` branch): given the current
`faults.drop_tx_local` / `faults.drop_tx_local_countdown` and the burst item
being filled, set `item.drop` and update the fault fields.
- armed with countdown 0: `item.drop = true`, disarm (one-shot);
- armed with countdown > 0: decrement the countdown, `item.drop = false`;
- not armed: `item.drop = false`, fault fields unchanged. -/
def fault_block (drop_tx_local : Bool) (countdown : Nat)
    (item : tx_burst_item_t) : tx_burst_item_t × Bool × Nat :=
  if drop_tx_local && countdown == 0 then
    ({ item with drop := true }, false, countdown)
  else if drop_tx_local then
    ({ item with drop := false }, true, countdown - 1)
  else
    ({ item with drop := false }, drop_tx_local, countdown)

/-- The arguments of one `enqueue_pkt_tx_burst_st` call (src/src/rpc.h
lines 374-376): routing info, the TX MsgBuffer, a byte offset and a data
length. -/
structure EnqueueIn where
  routing_info : Nat
  tx_msgbuf : MsgBuffer
  offset : Nat
  data_bytes : Nat
deriving Repr, DecidableEq

/-- `Rpc<TTr>::enqueue_pkt_tx_burst_st` (src/src/rpc.h lines 374-417):
fill `tx_burst_arr[tx_batch_i]` with the routing info, MsgBuffer, offset and
data bytes; run the fault-injection block when `kFaultInjection` is set
(otherwise the item's `drop` field is left as is — the source only asserts
`!item.drop`); increment the MsgBuffer's `pkts_queued`; increment
`tx_batch_i`; and if the batch is now full (`tx_batch_i == kPostlist`), burst
the whole array to the transport and reset `tx_batch_i` to 0.
Returns the new state, the updated MsgBuffer (the source updates it through
the `tx_msgbuf` pointer), and the burst item as written. -/
def enqueue_pkt_tx_burst_st (kFaultInjection : Bool) (kPostlist : Nat)
    (st : RpcTxState) (inp : EnqueueIn) :
    RpcTxState × MsgBuffer × tx_burst_item_t :=
  let item1 :=
    { st.tx_burst_arr.getD st.tx_batch_i dfltItem with
      routing_info := inp.routing_info, msg_buffer := inp.tx_msgbuf,
      offset := inp.offset, data_bytes := inp.data_bytes }
  let fb :=
    if kFaultInjection then
      fault_block st.faults_drop_tx_local st.faults_drop_tx_local_countdown
        item1
    else
      (item1, st.faults_drop_tx_local, st.faults_drop_tx_local_countdown)
  let tx_msgbuf := { inp.tx_msgbuf with pkts_queued := inp.tx_msgbuf.pkts_queued + 1 }
  let arr := st.tx_burst_arr.set st.tx_batch_i fb.1
  let i := st.tx_batch_i + 1
  if i == kPostlist then
    ({ tx_burst_arr := arr, tx_batch_i := 0,
       faults_drop_tx_local := fb.2.1,
       faults_drop_tx_local_countdown := fb.2.2,
       bursts := st.bursts ++ [arr.take kPostlist] }, tx_msgbuf, fb.1)
  else
    ({ tx_burst_arr := arr, tx_batch_i := i,
       faults_drop_tx_local := fb.2.1,
       faults_drop_tx_local_countdown := fb.2.2,
       bursts := st.bursts }, tx_msgbuf, fb.1)

/-- `Rpc<TTr>::tx_burst_now_st` (src/src/rpc.h lines 420-441): fill
`tx_burst_arr[tx_batch_i]` with the routing info, the (header-only CR/RFR)
MsgBuffer, offset 0 and data bytes 0 — the item's `drop` field is not
assigned — then increment `tx_batch_i`, call
`transport->tx_burst(tx_burst_arr, tx_batch_i)` and reset `tx_batch_i` to 0.
The MsgBuffer is fake, so `pkts_queued` is not updated. -/
def tx_burst_now_st (st : RpcTxState) (routing_info : Nat)
    (tx_msgbuf : MsgBuffer) : RpcTxState :=
  let item :=
    { st.tx_burst_arr.getD st.tx_batch_i dfltItem with
      routing_info := routing_info, msg_buffer := tx_msgbuf,
      offset := 0, data_bytes := 0 }
  let arr := st.tx_burst_arr.set st.tx_batch_i item
  { tx_burst_arr := arr, tx_batch_i := 0,
    faults_drop_tx_local := st.faults_drop_tx_local,
    faults_drop_tx_local_countdown := st.faults_drop_tx_local_countdown,
    bursts := st.bursts ++ [arr.take (st.tx_batch_i + 1)] }

/-- Iterate `enqueue_pkt_tx_burst_st` over a list of packets, collecting the
burst items as written (in call order). Used to state properties of the
fault injector across a run of enqueues. -/
def enqueue_run (kFaultInjection : Bool) (kPostlist : Nat)
    (st : RpcTxState) : List EnqueueIn → RpcTxState × List tx_burst_item_t
  | [] => (st, [])
  | inp :: rest =>
      let one := enqueue_pkt_tx_burst_st kFaultInjection kPostlist st inp
      let more := enqueue_run kFaultInjection kPostlist one.1 rest
      (more.1, one.2.2 :: more.2)

/-! ### Concrete sample values, used by witnesses and counterexamples -/

/-- A sample dynamically allocated MsgBuffer (non-null allocation handle). -/
def mbDyn : MsgBuffer :=
  { buffer_buf := some 4096, buf := some 4112, max_data_size := 100,
    max_num_pkts := 1, pkts_queued := 0 }

/-- A sample fake MsgBuffer aliasing a receive-ring slot (null handle). -/
def mbFake : MsgBuffer :=
  { buffer_buf := none, buf := some 777, max_data_size := 64,
    max_num_pkts := 1, pkts_queued := 0 }

/-! ### Helper lemmas (list indexing and arithmetic) -/

lemma list_getD_set_self {α : Type} (l : List α) (i : Nat) (a d : α)
    (h : i < l.length) : (l.set i a).getD i d = a := by
  induction l generalizing i with
  | nil => simp at h
  | cons x xs ih =>
    cases i with
    | zero => rfl
    | succ j =>
      show (x :: xs.set j a).getD (j + 1) d = a
      rw [List.getD_cons_succ]
      exact ih j (by simpa using h)

lemma list_take_succ_set {α : Type} (l : List α) (i : Nat) (a : α)
    (h : i < l.length) : (l.set i a).take (i + 1) = l.take i ++ [a] := by
  induction l generalizing i with
  | nil => simp at h
  | cons x xs ih =>
    cases i with
    | zero => rfl
    | succ j =>
      show (x :: xs.set j a).take (j + 1 + 1) = (x :: xs).take (j + 1) ++ [a]
      rw [List.take_succ_cons, List.take_succ_cons, List.cons_append]
      exact congrArg (x :: ·) (ih j (by simpa using h))

lemma alloc_msg_buffer_num_pkts_eq_max (k p : Nat) (hk : 0 < k) :
    alloc_msg_buffer_num_pkts k p = max 1 ((p + k - 1) / k) := by
  unfold alloc_msg_buffer_num_pkts
  by_cases h : p ≤ k
  · rw [if_pos h]
    have hlt : (p + k - 1) / k < 2 := Nat.div_lt_of_lt_mul (by omega)
    exact (Nat.max_eq_left (Nat.lt_succ_iff.mp hlt)).symm
  · rw [if_neg h]
    have he : p + (k - 1) = p + k - 1 := by omega
    rw [he]
    have h1 : 1 ≤ (p + k - 1) / k := (Nat.one_le_div_iff hk).mpr (by omega)
    exact (Nat.max_eq_right h1).symm

/-! ### Claim theorems -/

/-- C1 (amended). For packet-size constant `k > 0` and requested payload `p`,
`alloc_msg_buffer` asks the hugepage allocator for exactly
`p + max(1, ceil(p / k)) * sizeof(pkthdr_t)` bytes — which agrees with the
claimed `p + ceil(p / k) * sizeof(pkthdr_t)` for every `p ≥ 1` — and on
success returns a MsgBuffer whose payload pointer is offset past the header
headroom (one leading packet-header slot beyond the allocation base). -/
theorem alloc_msg_buffer_reserves (k p : Nat) (alloc : Nat → Option Nat)
    (base : Nat) (hk : 0 < k)
    (hs : alloc (alloc_msg_buffer_alloc_size k p) = some base) :
    alloc_msg_buffer_alloc_size k p
        = p + max 1 ((p + k - 1) / k) * sizeof_pkthdr
    ∧ (0 < p → alloc_msg_buffer_alloc_size k p = spec_reserved_bytes k p)
    ∧ (alloc_msg_buffer k alloc p).buf = some (base + sizeof_pkthdr) := by
  refine ⟨?_, ?_, ?_⟩
  · unfold alloc_msg_buffer_alloc_size
    rw [alloc_msg_buffer_num_pkts_eq_max k p hk]
  · intro hp
    unfold alloc_msg_buffer_alloc_size spec_reserved_bytes
    rw [alloc_msg_buffer_num_pkts_eq_max k p hk]
    have h1 : 1 ≤ (p + k - 1) / k := (Nat.one_le_div_iff hk).mpr (by omega)
    rw [Nat.max_eq_right h1]
  · unfold alloc_msg_buffer
    rw [hs]

/-- Witness for C1 at `k = 1024`, `p = 3000` with an allocator that returns
base address 10000: the reservation is `3000 + 3 * 16 = 3048` bytes and the
payload pointer is `10000 + 16`. -/
theorem alloc_msg_buffer_reserves_witness :
    0 < 1024
    ∧ (fun _ : Nat => some 10000) (alloc_msg_buffer_alloc_size 1024 3000)
        = some 10000
    ∧ (alloc_msg_buffer_alloc_size 1024 3000
          = 3000 + max 1 ((3000 + 1024 - 1) / 1024) * sizeof_pkthdr
        ∧ (0 < 3000 →
            alloc_msg_buffer_alloc_size 1024 3000
              = spec_reserved_bytes 1024 3000)
        ∧ (alloc_msg_buffer 1024 (fun _ => some 10000) 3000).buf
            = some (10000 + sizeof_pkthdr)) :=
  ⟨by decide, rfl,
   alloc_msg_buffer_reserves 1024 3000 (fun _ => some 10000) 10000
     (by decide) rfl⟩

/-- C1 counterexample: at requested payload `p = 0` (with `kMaxDataPerPkt =
1024`) the code reserves `16` bytes (one header slot, from the division-free
fast path), while the claimed formula `p + ceil(p / k) * sizeof(pkthdr_t)`
gives `0`. -/
theorem alloc_msg_buffer_reserves_cex :
    alloc_msg_buffer_alloc_size 1024 0 = 16
    ∧ spec_reserved_bytes 1024 0 = 0
    ∧ alloc_msg_buffer_alloc_size 1024 0 ≠ spec_reserved_bytes 1024 0 := by
  refine ⟨rfl, rfl, ?_⟩
  decide

/-- C2. `bump_credits` increments the session credit counter by one; under
the source's asserted precondition `credits < kSessionCredits`, the credits
after the bump never exceed `kSessionCredits`. -/
theorem bump_credits_bounded (session : Session)
    (hc : session.is_client = true)
    (h : session.credits < kSessionCredits) :
    (bump_credits session).credits = session.credits + 1
    ∧ (bump_credits session).credits ≤ kSessionCredits :=
  ⟨rfl, h⟩

/-- Witness for C2 at a concrete client session with 3 credits. -/
theorem bump_credits_bounded_witness :
    ({ is_client := true, credits := 3, sslot_free_vec := [] }
        : Session).is_client = true
    ∧ ({ is_client := true, credits := 3, sslot_free_vec := [] }
        : Session).credits < kSessionCredits
    ∧ ((bump_credits { is_client := true, credits := 3, sslot_free_vec := [] }).credits
          = 3 + 1
        ∧ (bump_credits { is_client := true, credits := 3, sslot_free_vec := [] }).credits
          ≤ kSessionCredits) :=
  ⟨rfl, by decide,
   bump_credits_bounded
     { is_client := true, credits := 3, sslot_free_vec := [] }
     rfl (by decide)⟩

/-- C4. The bury operations free the slot's TX (resp. RX) MsgBuffer back to
the allocator iff the buffer is dynamic; `bury_sslot_rx_msgbuf_nofree`, run
under its asserted precondition that the RX buffer is fake (non-dynamic),
never frees and leaves the allocation handle untouched; in every case the
buried pointer (`tx_msgbuf`, resp. `rx_msgbuf.buf`) is null afterwards. -/
theorem bury_ops_free_iff_dynamic (s1 s2 s3 : SSlot)
    (h3 : s3.rx_msgbuf.is_dynamic = false) :
    ((bury_sslot_tx_msgbuf s1).2 = true
        ↔ ∃ tx, s1.tx_msgbuf = some tx ∧ tx.is_dynamic = true)
    ∧ (bury_sslot_tx_msgbuf s1).1.tx_msgbuf = none
    ∧ (bury_sslot_rx_msgbuf s2).2 = s2.rx_msgbuf.is_dynamic
    ∧ (bury_sslot_rx_msgbuf s2).1.rx_msgbuf.buf = none
    ∧ (bury_sslot_rx_msgbuf_nofree s3).rx_msgbuf.buf = none
    ∧ (bury_sslot_rx_msgbuf_nofree s3).rx_msgbuf.buffer_buf
        = s3.rx_msgbuf.buffer_buf := by
  refine ⟨?_, rfl, ?_, ?_, rfl, rfl⟩
  · unfold bury_sslot_tx_msgbuf
    cases htx : s1.tx_msgbuf with
    | none => simp
    | some tx => simp
  · unfold bury_sslot_rx_msgbuf
    by_cases hd : s2.rx_msgbuf.is_dynamic <;> simp [hd]
  · unfold bury_sslot_rx_msgbuf
    by_cases hd : s2.rx_msgbuf.is_dynamic <;> simp [hd]

/-- Witness for C4: a slot with a dynamic TX buffer, a slot with a dynamic RX
buffer, and a slot with a fake RX buffer. -/
theorem bury_ops_free_iff_dynamic_witness :
    ({ index := 2, tx_msgbuf := none, rx_msgbuf := mbFake }
        : SSlot).rx_msgbuf.is_dynamic = false
    ∧ (((bury_sslot_tx_msgbuf { index := 0, tx_msgbuf := some mbDyn, rx_msgbuf := mbFake }).2 = true
          ↔ ∃ tx, ({ index := 0, tx_msgbuf := some mbDyn, rx_msgbuf := mbFake }
              : SSlot).tx_msgbuf = some tx ∧ tx.is_dynamic = true)
        ∧ (bury_sslot_tx_msgbuf { index := 0, tx_msgbuf := some mbDyn, rx_msgbuf := mbFake }).1.tx_msgbuf = none
        ∧ (bury_sslot_rx_msgbuf { index := 1, tx_msgbuf := none, rx_msgbuf := mbDyn }).2
            = ({ index := 1, tx_msgbuf := none, rx_msgbuf := mbDyn }
                : SSlot).rx_msgbuf.is_dynamic
        ∧ (bury_sslot_rx_msgbuf { index := 1, tx_msgbuf := none, rx_msgbuf := mbDyn }).1.rx_msgbuf.buf = none
        ∧ (bury_sslot_rx_msgbuf_nofree { index := 2, tx_msgbuf := none, rx_msgbuf := mbFake }).rx_msgbuf.buf = none
        ∧ (bury_sslot_rx_msgbuf_nofree { index := 2, tx_msgbuf := none, rx_msgbuf := mbFake }).rx_msgbuf.buffer_buf
            = ({ index := 2, tx_msgbuf := none, rx_msgbuf := mbFake }
                : SSlot).rx_msgbuf.buffer_buf) :=
  ⟨by decide,
   bury_ops_free_iff_dynamic
     { index := 0, tx_msgbuf := some mbDyn, rx_msgbuf := mbFake }
     { index := 1, tx_msgbuf := none, rx_msgbuf := mbDyn }
     { index := 2, tx_msgbuf := none, rx_msgbuf := mbFake }
     (by decide)⟩

/-- C5. When the hugepage allocation fails (the allocator returns null for
the requested size), `alloc_msg_buffer` returns the invalid MsgBuffer: its
payload pointer `buf` is null (and it owns no allocation). The model is a
total function — the failure path returns normally rather than throwing,
matching the source's doc comment (src/src/rpc.h lines 81-83, 101-105). -/
theorem alloc_msg_buffer_oom_invalid (k p : Nat) (alloc : Nat → Option Nat)
    (h : alloc (alloc_msg_buffer_alloc_size k p) = none) :
    (alloc_msg_buffer k alloc p).buf = none
    ∧ (alloc_msg_buffer k alloc p).buffer_buf = none := by
  unfold alloc_msg_buffer
  rw [h]
  exact ⟨rfl, rfl⟩

/-- Witness for C5 with the always-exhausted allocator at `k = 1024`,
`p = 512`. -/
theorem alloc_msg_buffer_oom_invalid_witness :
    (fun _ : Nat => (none : Option Nat)) (alloc_msg_buffer_alloc_size 1024 512)
        = none
    ∧ ((alloc_msg_buffer 1024 (fun _ => none) 512).buf = none
        ∧ (alloc_msg_buffer 1024 (fun _ => none) 512).buffer_buf = none) :=
  ⟨rfl, alloc_msg_buffer_oom_invalid 1024 512 (fun _ => none) rfl⟩

/-- C7. Under the source's asserted preconditions (the slot's `tx_msgbuf` was
already buried to null before the continuation ran, the RX buffer is valid,
and the session is a client session), `release_respone` buries the slot's RX
MsgBuffer — freeing it exactly when it is dynamic and nulling its payload
pointer — and pushes the slot's index onto the session's free-slot list. -/
theorem release_respone_buries_and_frees_slot (sslot : SSlot)
    (session : Session)
    (h1 : sslot.tx_msgbuf = none)
    (h2 : sslot.rx_msgbuf.buf ≠ none)
    (h3 : session.is_client = true) :
    (release_respone sslot session).2.2 = sslot.rx_msgbuf.is_dynamic
    ∧ (release_respone sslot session).1.rx_msgbuf.buf = none
    ∧ (release_respone sslot session).2.1.sslot_free_vec
        = session.sslot_free_vec ++ [sslot.index] := by
  refine ⟨?_, ?_, rfl⟩
  · unfold release_respone bury_sslot_rx_msgbuf
    by_cases hd : sslot.rx_msgbuf.is_dynamic <;> simp [hd]
  · unfold release_respone bury_sslot_rx_msgbuf
    by_cases hd : sslot.rx_msgbuf.is_dynamic <;> simp [hd]

/-- Witness for C7 at a concrete client slot holding a dynamic RX response
buffer, on a session whose free list already holds slots 1 and 2. -/
theorem release_respone_buries_and_frees_slot_witness :
    ({ index := 4, tx_msgbuf := none, rx_msgbuf := mbDyn } : SSlot).tx_msgbuf
        = none
    ∧ ({ index := 4, tx_msgbuf := none, rx_msgbuf := mbDyn }
        : SSlot).rx_msgbuf.buf ≠ none
    ∧ ({ is_client := true, credits := 8, sslot_free_vec := [1, 2] }
        : Session).is_client = true
    ∧ ((release_respone { index := 4, tx_msgbuf := none, rx_msgbuf := mbDyn }
          { is_client := true, credits := 8, sslot_free_vec := [1, 2] }).2.2
          = ({ index := 4, tx_msgbuf := none, rx_msgbuf := mbDyn }
              : SSlot).rx_msgbuf.is_dynamic
        ∧ (release_respone { index := 4, tx_msgbuf := none, rx_msgbuf := mbDyn }
            { is_client := true, credits := 8, sslot_free_vec := [1, 2] }).1.rx_msgbuf.buf
          = none
        ∧ (release_respone { index := 4, tx_msgbuf := none, rx_msgbuf := mbDyn }
            { is_client := true, credits := 8, sslot_free_vec := [1, 2] }).2.1.sslot_free_vec
          = [1, 2] ++ [4]) :=
  ⟨rfl, by decide, rfl,
   release_respone_buries_and_frees_slot
     { index := 4, tx_msgbuf := none, rx_msgbuf := mbDyn }
     { is_client := true, credits := 8, sslot_free_vec := [1, 2] }
     rfl (by decide) rfl⟩

/-- C8. `kMaxMsgSize` equals `kMaxClassSize - (kMaxClassSize / kMaxDataPerPkt)
* sizeof(pkthdr_t)`; the largest size class thus accommodates exactly
`kMaxClassSize / kMaxDataPerPkt` header slots plus `kMaxMsgSize` payload
bytes; and under the bounds established by the source's static asserts
(src/src/rpc.h lines 39-40, here hypotheses on the out-of-scope constants),
`kMaxMsgSize` exceeds neither the `msg_size` field capacity `2^kMsgSizeBits`
nor the `pkt_num` capacity `2^kPktNumBits` packets of `kMaxDataPerPkt` bytes. -/
theorem kMaxMsgSize_fits_header_fields (kMaxClassSize kMaxDataPerPkt : Nat)
    (h1 : kMaxClassSize ≤ 2 ^ kMsgSizeBits)
    (h2 : kMaxClassSize ≤ 2 ^ kPktNumBits * kMaxDataPerPkt)
    (h3 : sizeof_pkthdr ≤ kMaxDataPerPkt) :
    kMaxMsgSize kMaxClassSize kMaxDataPerPkt
        = kMaxClassSize
            - (kMaxClassSize / kMaxDataPerPkt) * sizeof_pkthdr
    ∧ kMaxMsgSize kMaxClassSize kMaxDataPerPkt
          + (kMaxClassSize / kMaxDataPerPkt) * sizeof_pkthdr
        = kMaxClassSize
    ∧ kMaxMsgSize kMaxClassSize kMaxDataPerPkt ≤ 2 ^ kMsgSizeBits
    ∧ kMaxMsgSize kMaxClassSize kMaxDataPerPkt
        ≤ 2 ^ kPktNumBits * kMaxDataPerPkt := by
  refine ⟨rfl, ?_, ?_, ?_⟩
  · have hle : (kMaxClassSize / kMaxDataPerPkt) * sizeof_pkthdr
        ≤ kMaxClassSize :=
      le_trans (Nat.mul_le_mul (Nat.le_refl _) h3)
        (Nat.div_mul_le_self kMaxClassSize kMaxDataPerPkt)
    exact Nat.sub_add_cancel hle
  · exact le_trans (Nat.sub_le _ _) h1
  · exact le_trans (Nat.sub_le _ _) h2

/-- Witness for C8 at the constants of the reference configuration:
`kMaxClassSize = 8 MiB`, `kMaxDataPerPkt = 4080` (a 4096-byte MTU minus the
16-byte header). -/
theorem kMaxMsgSize_fits_header_fields_witness :
    8388608 ≤ 2 ^ kMsgSizeBits
    ∧ 8388608 ≤ 2 ^ kPktNumBits * 4080
    ∧ sizeof_pkthdr ≤ 4080
    ∧ (kMaxMsgSize 8388608 4080
          = 8388608 - (8388608 / 4080) * sizeof_pkthdr
        ∧ kMaxMsgSize 8388608 4080 + (8388608 / 4080) * sizeof_pkthdr
          = 8388608
        ∧ kMaxMsgSize 8388608 4080 ≤ 2 ^ kMsgSizeBits
        ∧ kMaxMsgSize 8388608 4080 ≤ 2 ^ kPktNumBits * 4080) :=
  ⟨by decide, by decide, by decide,
   kMaxMsgSize_fits_header_fields 8388608 4080
     (by decide) (by decide) (by decide)⟩

/-- C10. Every call to `enqueue_pkt_tx_burst_st` increments the TX
MsgBuffer's `pkts_queued` by exactly one — for every fault-injection
configuration and every state, so in particular whether or not the fault
injector marked the packet as dropped. -/
theorem enqueue_pkt_tx_burst_st_pkts_queued (kFaultInjection : Bool)
    (kPostlist : Nat) (st : RpcTxState) (inp : EnqueueIn) :
    (enqueue_pkt_tx_burst_st kFaultInjection kPostlist st inp).2.1.pkts_queued
      = inp.tx_msgbuf.pkts_queued + 1 := by
  unfold enqueue_pkt_tx_burst_st
  dsimp only
  split <;> rfl

/-- A sample deferred data packet sitting in the TX burst array. -/
def itemA : tx_burst_item_t :=
  { routing_info := 5, msg_buffer := mbFake, offset := 0, data_bytes := 32,
    drop := false }

/-- A sample burst-array slot left behind with its drop flag set. -/
def itemB : tx_burst_item_t :=
  { routing_info := 7, msg_buffer := mbFake, offset := 0, data_bytes := 64,
    drop := true }

/-- A TX state with one deferred packet pending in the batch
(`tx_batch_i = 1`). -/
def stC3 : RpcTxState :=
  { tx_burst_arr := [itemA, dfltItem], tx_batch_i := 1,
    faults_drop_tx_local := false, faults_drop_tx_local_countdown := 0,
    bursts := [] }

/-- A TX state with an empty batch whose slot 0 holds a leftover dropped
item. -/
def stC9 : RpcTxState :=
  { tx_burst_arr := [itemB], tx_batch_i := 0,
    faults_drop_tx_local := false, faults_drop_tx_local_countdown := 0,
    bursts := [] }

/-- C3 (amended). `tx_burst_now_st` emits the header-only control packet via
an immediate burst: it appends the control item at `tx_batch_i` and at once
hands `tx_burst(tx_burst_arr, tx_batch_i + 1)` to the transport, so the burst
consists of the deferred packets currently pending in the batch followed by
that one control packet, and the batch index resets to 0. The burst is a
single-item burst containing exactly the control packet precisely when no
deferred packets were pending (`tx_batch_i = 0` at entry). -/
theorem tx_burst_now_st_immediate_burst (st : RpcTxState) (r : Nat)
    (m : MsgBuffer) (h : st.tx_batch_i < st.tx_burst_arr.length) :
    ∃ b, (tx_burst_now_st st r m).bursts = st.bursts ++ [b]
      ∧ b = st.tx_burst_arr.take st.tx_batch_i
            ++ [{ st.tx_burst_arr.getD st.tx_batch_i dfltItem with
                  routing_info := r, msg_buffer := m,
                  offset := 0, data_bytes := 0 }]
      ∧ b.length = st.tx_batch_i + 1
      ∧ (st.tx_batch_i = 0 →
          b = [{ st.tx_burst_arr.getD st.tx_batch_i dfltItem with
                 routing_info := r, msg_buffer := m,
                 offset := 0, data_bytes := 0 }])
      ∧ (tx_burst_now_st st r m).tx_batch_i = 0 := by
  unfold tx_burst_now_st
  dsimp only
  refine ⟨_, rfl, list_take_succ_set _ _ _ h, ?_, ?_, rfl⟩
  · rw [list_take_succ_set _ _ _ h, List.length_append, List.length_take]
    simp
    omega
  · intro h0
    rw [list_take_succ_set _ _ _ h, h0]
    simp

/-- Witness for C3 (amended) at the concrete state `stC3` with one pending
deferred packet: the emitted burst is the deferred packet followed by the
control packet (length 2). -/
theorem tx_burst_now_st_immediate_burst_witness :
    stC3.tx_batch_i < stC3.tx_burst_arr.length
    ∧ (∃ b, (tx_burst_now_st stC3 9 mbFake).bursts = stC3.bursts ++ [b]
        ∧ b = stC3.tx_burst_arr.take stC3.tx_batch_i
              ++ [{ stC3.tx_burst_arr.getD stC3.tx_batch_i dfltItem with
                    routing_info := 9, msg_buffer := mbFake,
                    offset := 0, data_bytes := 0 }]
        ∧ b.length = stC3.tx_batch_i + 1
        ∧ (stC3.tx_batch_i = 0 →
            b = [{ stC3.tx_burst_arr.getD stC3.tx_batch_i dfltItem with
                   routing_info := 9, msg_buffer := mbFake,
                   offset := 0, data_bytes := 0 }])
        ∧ (tx_burst_now_st stC3 9 mbFake).tx_batch_i = 0) :=
  ⟨by decide, tx_burst_now_st_immediate_burst stC3 9 mbFake (by decide)⟩

/-- C3 counterexample: starting from `stC3` (one deferred packet already in
the batch), sending a header-only control packet through `tx_burst_now_st`
hands the transport a two-item burst — the deferred packet `itemA` followed
by the control packet — not a burst containing exactly the one control
packet. -/
theorem tx_burst_now_st_single_item_cex :
    (tx_burst_now_st stC3 9 mbFake).bursts
      = [[itemA,
          { routing_info := 9, msg_buffer := mbFake, offset := 0,
            data_bytes := 0, drop := false }]]
    ∧ ((tx_burst_now_st stC3 9 mbFake).bursts.getD 0 []).length ≠ 1 := by
  decide

/-- C9. `tx_burst_now_st` assigns the burst item's routing info, message
buffer, offset (0) and data bytes (0), but never assigns its `drop` flag:
the written slot's `drop` equals whatever value was already stored in that
`tx_burst_arr` slot. -/
theorem tx_burst_now_st_drop_unassigned (st : RpcTxState) (r : Nat)
    (m : MsgBuffer) (h : st.tx_batch_i < st.tx_burst_arr.length) :
    (tx_burst_now_st st r m).tx_burst_arr.getD st.tx_batch_i dfltItem
      = { st.tx_burst_arr.getD st.tx_batch_i dfltItem with
          routing_info := r, msg_buffer := m, offset := 0, data_bytes := 0 }
    ∧ ((tx_burst_now_st st r m).tx_burst_arr.getD st.tx_batch_i dfltItem).drop
      = (st.tx_burst_arr.getD st.tx_batch_i dfltItem).drop := by
  have he : (tx_burst_now_st st r m).tx_burst_arr.getD st.tx_batch_i dfltItem
      = { st.tx_burst_arr.getD st.tx_batch_i dfltItem with
          routing_info := r, msg_buffer := m, offset := 0,
          data_bytes := 0 } := by
    unfold tx_burst_now_st
    dsimp only
    exact list_getD_set_self _ _ _ _ h
  exact ⟨he, by rw [he]⟩

/-- Witness for C9 at `stC9`, whose slot 0 was left with `drop = true` by an
earlier deferred packet: the header-only packet written by `tx_burst_now_st`
inherits `drop = true`. -/
theorem tx_burst_now_st_drop_unassigned_witness :
    stC9.tx_batch_i < stC9.tx_burst_arr.length
    ∧ ((tx_burst_now_st stC9 11 mbFake).tx_burst_arr.getD stC9.tx_batch_i dfltItem
        = { stC9.tx_burst_arr.getD stC9.tx_batch_i dfltItem with
            routing_info := 11, msg_buffer := mbFake,
            offset := 0, data_bytes := 0 }
      ∧ ((tx_burst_now_st stC9 11 mbFake).tx_burst_arr.getD stC9.tx_batch_i dfltItem).drop
        = (stC9.tx_burst_arr.getD stC9.tx_batch_i dfltItem).drop) :=
  ⟨by decide, tx_burst_now_st_drop_unassigned stC9 11 mbFake (by decide)⟩

/-! ### Fault-injection lemmas for `enqueue_pkt_tx_burst_st` -/

lemma enqueue_item_drop (kPostlist : Nat) (st : RpcTxState) (inp : EnqueueIn) :
    (enqueue_pkt_tx_burst_st true kPostlist st inp).2.2.drop
      = (st.faults_drop_tx_local
          && st.faults_drop_tx_local_countdown == 0) := by
  cases hd : st.faults_drop_tx_local
    <;> cases hc : st.faults_drop_tx_local_countdown
    <;> simp [enqueue_pkt_tx_burst_st, fault_block, hd, hc]
    <;> split <;> rfl

lemma enqueue_faults_next (kPostlist : Nat) (st : RpcTxState)
    (inp : EnqueueIn) :
    (enqueue_pkt_tx_burst_st true kPostlist st inp).1.faults_drop_tx_local
      = (st.faults_drop_tx_local
          && !(st.faults_drop_tx_local_countdown == 0))
    ∧ (enqueue_pkt_tx_burst_st true kPostlist st inp).1.faults_drop_tx_local_countdown
      = st.faults_drop_tx_local_countdown
          - (if st.faults_drop_tx_local then 1 else 0) := by
  constructor
    <;> (cases hd : st.faults_drop_tx_local
          <;> cases hc : st.faults_drop_tx_local_countdown
          <;> simp [enqueue_pkt_tx_burst_st, fault_block, hd, hc]
          <;> split <;> rfl)

lemma enqueue_run_unarmed (kPostlist : Nat) (st : RpcTxState)
    (inputs : List EnqueueIn) (h : st.faults_drop_tx_local = false) :
    (∀ j, (((enqueue_run true kPostlist st inputs).2).getD j dfltItem).drop
        = false)
    ∧ (enqueue_run true kPostlist st inputs).1.faults_drop_tx_local
        = false := by
  induction inputs generalizing st with
  | nil =>
    refine ⟨fun j => ?_, h⟩
    simp [enqueue_run, dfltItem]
  | cons inp rest ih =>
    have hd := enqueue_item_drop kPostlist st inp
    have hfd := (enqueue_faults_next kPostlist st inp).1
    rw [h] at hd hfd
    simp at hd hfd
    have ihh := ih (enqueue_pkt_tx_burst_st true kPostlist st inp).1 hfd
    refine ⟨fun j => ?_, ?_⟩
    · cases j with
      | zero => simpa [enqueue_run] using hd
      | succ m => simpa [enqueue_run] using ihh.1 m
    · simpa [enqueue_run] using ihh.2

/-- C6. If the TX-local drop fault is armed with countdown `n`
(`faults.drop_tx_local = true`, `faults.drop_tx_local_countdown = n`), then
across any subsequent sequence of packets enqueued through
`enqueue_pkt_tx_burst_st` (with fault injection compiled in), the `j`-th
enqueued packet (0-based) has its drop flag set iff `j = n` — i.e. exactly
the `(n+1)`-th packet is dropped and every other one is not — and once the
`(n+1)`-th packet has been enqueued the fault is cleared (one-shot). -/
theorem fault_inject_drop_tx_local_one_shot (kPostlist : Nat)
    (st : RpcTxState) (inputs : List EnqueueIn) (n : Nat)
    (h1 : st.faults_drop_tx_local = true)
    (h2 : st.faults_drop_tx_local_countdown = n) :
    (∀ j, j < inputs.length →
        (((enqueue_run true kPostlist st inputs).2).getD j dfltItem).drop
          = decide (j = n))
    ∧ (n < inputs.length →
        (enqueue_run true kPostlist st inputs).1.faults_drop_tx_local
          = false) := by
  induction inputs generalizing st n with
  | nil =>
    refine ⟨fun j hj => ?_, fun hn => ?_⟩
    · simp at hj
    · simp at hn
  | cons inp rest ih =>
    have hd := enqueue_item_drop kPostlist st inp
    obtain ⟨hfd, hfc⟩ := enqueue_faults_next kPostlist st inp
    rw [h1, h2] at hd hfd hfc
    have hhead : (((enqueue_run true kPostlist st (inp :: rest)).2).getD 0 dfltItem)
        = (enqueue_pkt_tx_burst_st true kPostlist st inp).2.2 := by
      simp [enqueue_run]
    have htail : ∀ m,
        (((enqueue_run true kPostlist st (inp :: rest)).2).getD (m + 1) dfltItem)
          = (((enqueue_run true kPostlist
                (enqueue_pkt_tx_burst_st true kPostlist st inp).1 rest).2).getD
              m dfltItem) := by
      intro m
      simp [enqueue_run]
    have hfin : (enqueue_run true kPostlist st (inp :: rest)).1
        = (enqueue_run true kPostlist
            (enqueue_pkt_tx_burst_st true kPostlist st inp).1 rest).1 := by
      simp [enqueue_run]
    cases n with
    | zero =>
      simp at hd hfd
      have hrest := enqueue_run_unarmed kPostlist
        (enqueue_pkt_tx_burst_st true kPostlist st inp).1 rest hfd
      refine ⟨fun j hj => ?_, fun hn => ?_⟩
      · cases j with
        | zero =>
          rw [hhead, hd]
          rfl
        | succ m =>
          rw [htail m, hrest.1 m]
          rfl
      · rw [hfin]
        exact hrest.2
    | succ k =>
      simp at hd hfd hfc
      have ihh := ih (enqueue_pkt_tx_burst_st true kPostlist st inp).1 k hfd
        hfc
      refine ⟨fun j hj => ?_, fun hn => ?_⟩
      · cases j with
        | zero =>
          rw [hhead, hd]
          rfl
        | succ m =>
          rw [htail m, ihh.1 m (by simp at hj; omega)]
          exact decide_eq_decide.mpr (by omega)
      · rw [hfin]
        exact ihh.2 (by simp at hn; omega)

/-- A TX state whose drop fault has been armed with countdown 1 (as
`fault_inject_drop_tx_local_st(1)` leaves it). -/
def stC6 : RpcTxState :=
  { tx_burst_arr := [dfltItem, dfltItem, dfltItem, dfltItem], tx_batch_i := 0,
    faults_drop_tx_local := true, faults_drop_tx_local_countdown := 1,
    bursts := [] }

/-- A sample enqueue call. -/
def inpC6 : EnqueueIn :=
  { routing_info := 3, tx_msgbuf := mbDyn, offset := 0, data_bytes := 100 }

/-- Witness for C6: armed with countdown 1 and three packets enqueued, only
the second packet's drop flag is set, and the fault ends up cleared. -/
theorem fault_inject_drop_tx_local_one_shot_witness :
    stC6.faults_drop_tx_local = true
    ∧ stC6.faults_drop_tx_local_countdown = 1
    ∧ (((enqueue_run true 16 stC6 [inpC6, inpC6, inpC6]).2).getD 0 dfltItem).drop
        = decide ((0 : Nat) = 1)
    ∧ (((enqueue_run true 16 stC6 [inpC6, inpC6, inpC6]).2).getD 1 dfltItem).drop
        = decide ((1 : Nat) = 1)
    ∧ (((enqueue_run true 16 stC6 [inpC6, inpC6, inpC6]).2).getD 2 dfltItem).drop
        = decide ((2 : Nat) = 1)
    ∧ (enqueue_run true 16 stC6 [inpC6, inpC6, inpC6]).1.faults_drop_tx_local
        = false :=
  ⟨rfl, rfl,
   (fault_inject_drop_tx_local_one_shot 16 stC6 [inpC6, inpC6, inpC6] 1
      rfl rfl).1 0 (by decide),
   (fault_inject_drop_tx_local_one_shot 16 stC6 [inpC6, inpC6, inpC6] 1
      rfl rfl).1 1 (by decide),
   (fault_inject_drop_tx_local_one_shot 16 stC6 [inpC6, inpC6, inpC6] 1
      rfl rfl).1 2 (by decide),
   (fault_inject_drop_tx_local_one_shot 16 stC6 [inpC6, inpC6, inpC6] 1
      rfl rfl).2 (by decide)⟩

end ERpc
